import Mathlib

/-!
Verification of the NextCare Telemetry Acquisition & Threshold Alerting
Engine (src/app/data_collector/__init__.py, src/app/models/__init__.py,
src/app/dashboard/routes.py) against its natural-language specification.

The Python code is shallowly embedded: numeric sensor values are modelled
as `Rat` (the source uses Python floats / SQL `Numeric(10,2)` values whose
comparisons at the granularity used here agree with exact rational
arithmetic), database state is explicit (`Session` for pending writes,
`Store` for committed rows), the Modbus library is an oracle (`PlcEnv`)
supplying connection outcomes and per-register responses, and Python
exceptions are explicit alternatives of those oracles.  `try/except` blocks
of the source become the corresponding `match`/`if` branches.
-/

namespace NextCare

/-! ## Data model (src/app/models/__init__.py) -/

/-- Embeds the `Parameter` model (a MonitoredPoint): machine-owned register
binding with unit, optional min/max bounds and an active flag.  Fields not
touched by the collector (timestamps, machine_id) are omitted. -/
structure Parameter where
  parameter_id : Nat
  name : String
  register_address : String
  unit : String
  min_value : Option Rat
  max_value : Option Rat
  is_active : Bool
  deriving Repr, DecidableEq

/-- Embeds the `SensorData` model (a Reading): quality_code 0 = good,
1 = uncertain, 2 = bad.  `timestamp` abstracts `datetime.utcnow()` as a
Nat supplied by the caller. -/
structure SensorData where
  parameter_id : Nat
  value : Rat
  timestamp : Nat
  quality_code : Nat
  deriving Repr, DecidableEq

/-- Embeds the `Alert` model (an AlertEvent) as constructed by the
collector: acknowledgement fields keep their defaults and are never
written by the core, so they are omitted. -/
structure Alert where
  parameter_id : Nat
  message : String
  severity : String
  threshold_value : Rat
  actual_value : Rat
  deriving Repr, DecidableEq

/-- Pending (uncommitted) writes of the current cycle: the collector only
ever calls `db.session.add` on SensorData and Alert rows. -/
structure Session where
  readings : List SensorData
  alerts : List Alert
  deriving Repr, DecidableEq

/-- Committed database rows for the two record families the core writes. -/
structure Store where
  readings : List SensorData
  alerts : List Alert
  deriving Repr, DecidableEq

/-! ## Live Fan-out events (src/app/dashboard/routes.py) -/

/-- A Socket.IO notification emitted to all subscribers. -/
inductive FanoutEvent where
  | sensor_data_update (parameter_id : Nat) (value : Rat) (timestamp : Nat)
  | alert_created (alert_id : Nat) (parameter_id : Nat) (parameter_name : String)
      (message : String) (severity : String) (created_at : Nat)
  deriving Repr, DecidableEq

/-- Embeds `broadcast_sensor_update` of src/app/dashboard/routes.py: builds
the reading-update notification.  The source defines it but no caller in
the repository invokes it. -/
def broadcast_sensor_update (parameter_id : Nat) (value : Rat) (timestamp : Nat) :
    FanoutEvent :=
  FanoutEvent.sensor_data_update parameter_id value timestamp

/-- Embeds `broadcast_alert` of src/app/dashboard/routes.py: builds the
alert-created notification from a persisted alert row (alert_id and
created_at are assigned by the database).  The source defines it but no
caller in the repository invokes it. -/
def broadcast_alert (alert_id : Nat) (a : Alert) (parameter_name : String)
    (created_at : Nat) : FanoutEvent :=
  FanoutEvent.alert_created alert_id a.parameter_id parameter_name
    a.message a.severity created_at

/-! ## Register identifier decoding

`read_register` does, inside its `try`:
  if isinstance(register_address, str) and register_address.startswith('D'):
      register_num = int(register_address[1:])
  else:
      register_num = int(register_address)
`int()` on a string accepts an optional sign followed by digits; on
anything else it raises ValueError, which the surrounding `except` turns
into a `None` return. -/

/-- One step of decimal accumulation: fails on a non-digit. -/
def pyDigitStep (acc : Option Nat) (c : Char) : Option Nat :=
  match acc with
  | none => none
  | some n => if c.isDigit then some (n * 10 + (c.toNat - 48)) else none

/-- Accumulates a decimal digit string; `none` on a non-digit or on the
empty string, modelling `int()` raising ValueError. -/
def pyParseDigits (l : List Char) : Option Nat :=
  match l with
  | [] => none
  | _ => l.foldl pyDigitStep (some 0)

/-- Embeds Python `int()` applied to a character list: optional single
sign then one or more decimal digits; `none` models a ValueError. -/
def pyInt (l : List Char) : Option Int :=
  match l with
  | [] => none
  | c :: rest =>
    if c = '-' then (pyParseDigits rest).map (fun n => -(n : Int))
    else if c = '+' then (pyParseDigits rest).map (fun n => (n : Int))
    else (pyParseDigits (c :: rest)).map (fun n => (n : Int))

/-- The register-identifier decode performed inside `read_register`
(lines 66-69): when the identifier starts with the letter `D`
(`register_address.startswith('D')`), parse the remainder
(`int(register_address[1:])`); otherwise parse the whole identifier
(`int(register_address)`).  `none` models the ValueError caught at
line 84. -/
def decodeRegisterAddress (s : String) : Option Int :=
  match s.data with
  | [] => pyInt []
  | c :: rest => if c = 'D' then pyInt rest else pyInt (c :: rest)

/-- Claim-side predicate: the character list is a valid Python integer
literal (an optional sign followed by at least one decimal digit), i.e.
`int()` would accept it. -/
def isPyIntString (l : List Char) : Bool :=
  match l with
  | [] => false
  | c :: rest =>
    if c = '-' ∨ c = '+' then !rest.isEmpty && rest.all Char.isDigit
    else (c :: rest).all Char.isDigit

/-- Embeds `Parameter.get_register_number` of src/app/models/__init__.py:
`int(self.register_address[1:]) if self.register_address.startswith('D')
else None`.  Here the ValueError of `int()` is NOT caught: `Except.error`
models the escaping exception. -/
def get_register_number (p : Parameter) : Except Unit (Option Int) :=
  match p.register_address.data with
  | [] => Except.ok none
  | c :: rest =>
    if c = 'D' then
      match pyInt rest with
      | some n => Except.ok (some n)
      | none => Except.error ()
    else Except.ok none

/-! ## Protocol client (DataCollector.connect / read_register) -/

/-- Response of the Modbus library to one `read_holding_registers` call:
a 16-bit register value, a protocol-level error response (`result.isError()`),
or a raised transport exception (timeout / reset / refused). -/
inductive ModbusResponse where
  | ok (raw : Nat)
  | errorResponse
  | transportError
  deriving Repr, DecidableEq

/-- Oracle for the external Modbus library: whether a connect attempt
succeeds (covering both a `False` return and a raised exception, which
`connect` maps to the same `False` result), and the device's response per
register number. -/
structure PlcEnv where
  connectOk : Bool
  respond : Int → ModbusResponse

/-- Connection state of the `DataCollector`: whether `self.client` exists
and reports connected, plus a cumulative count of connect attempts made
(for the at-most-one-connect-per-read property). -/
structure ClientState where
  connected : Bool
  connectAttempts : Nat
  deriving Repr, DecidableEq

/-- Embeds `DataCollector.connect` (lines 32-47): builds a fresh client and
attempts one connection; returns `True` on success, `False` on a failed or
raising attempt (the `except` at line 45 returns `False`). -/
def connect (env : PlcEnv) (st : ClientState) : ClientState × Bool :=
  ({ connected := env.connectOk, connectAttempts := st.connectAttempts + 1 },
   env.connectOk)

/-- Embeds `DataCollector.read_register` (lines 58-86).  Reconnects on
demand when no live connection exists; decodes the register identifier;
issues one holding-register read; divides the raw value by 100.  Every
failure path of the source returns `None` (here `none`): failed connect,
ValueError from `int()`, Modbus error response, raised transport
exception. -/
def read_register (env : PlcEnv) (st : ClientState) (register_address : String) :
    ClientState × Option Rat :=
  let (st1, connOk) :=
    if !st.connected then connect env st else (st, true)
  if !connOk then
    (st1, none)
  else
    match decodeRegisterAddress register_address with
    | none => (st1, none)
    | some register_num =>
      match env.respond register_num with
      | ModbusResponse.ok raw => (st1, some ((raw : Rat) / 100))
      | ModbusResponse.errorResponse => (st1, none)
      | ModbusResponse.transportError => (st1, none)

/-! ## Threshold evaluation (DataCollector.check_parameter_alerts) -/

/-- Renders a rational for an alert message, standing in for Python's
string interpolation of the float value. -/
def ratRepr (q : Rat) : String :=
  if q.den = 1 then toString q.num
  else toString q.num ++ "/" ++ toString q.den

/-- Message of the below-minimum alert (line 134 of the source). -/
def belowMinMessage (p : Parameter) (value : Rat) : String :=
  p.name ++ " value (" ++ ratRepr value ++ " " ++ p.unit ++
    ") is below minimum threshold"

/-- Message of the above-maximum alert (line 145 of the source). -/
def exceedsMaxMessage (p : Parameter) (value : Rat) : String :=
  p.name ++ " value (" ++ ratRepr value ++ " " ++ p.unit ++
    ") exceeds maximum threshold"

/-- Appends a reading to the pending session, embedding `db.session.add`. -/
def Session.addReading (s : Session) (d : SensorData) : Session :=
  { s with readings := s.readings ++ [d] }

/-- Appends an alert to the pending session, embedding `db.session.add`. -/
def Session.addAlert (s : Session) (a : Alert) : Session :=
  { s with alerts := s.alerts ++ [a] }

/-- Embeds `DataCollector.check_parameter_alerts` (lines 125-158): two
independent bound checks, each adding one high-severity alert row to the
session when its bound is set and strictly violated. -/
def check_parameter_alerts (p : Parameter) (value : Rat) (s : Session) : Session :=
  let s1 :=
    match p.min_value with
    | some lo =>
      if value < lo then
        s.addAlert
          { parameter_id := p.parameter_id
            message := belowMinMessage p value
            severity := "high"
            threshold_value := lo
            actual_value := value }
      else s
    | none => s
  match p.max_value with
  | some hi =>
    if value > hi then
      s1.addAlert
        { parameter_id := p.parameter_id
          message := exceedsMaxMessage p value
          severity := "high"
          threshold_value := hi
          actual_value := value }
    else s1
  | none => s1

/-! ## Acquisition cycle (collect_parameter_data / collect_all_data) -/

/-- Result of processing one parameter: the threaded client state, the
session grown by this point's rows, the Live Fan-out notifications emitted
while processing it, and the boolean the source returns. -/
structure ParamResult where
  state : ClientState
  session : Session
  events : List FanoutEvent
  success : Bool

/-- Embeds `DataCollector.collect_parameter_data` (lines 88-123): read the
register; on a value, add a good (quality 0) reading and run the threshold
checks; on `None`, add a bad (quality 2) reading with value 0 and skip
evaluation.  The source contains no call into the Live Fan-out
(`broadcast_sensor_update` / `broadcast_alert` are never invoked), so the
emitted-event list is empty on both branches. -/
def collect_parameter_data (env : PlcEnv) (now : Nat) (st : ClientState)
    (s : Session) (p : Parameter) : ParamResult :=
  match read_register env st p.register_address with
  | (st1, some value) =>
    let s1 := s.addReading
      { parameter_id := p.parameter_id
        value := value
        timestamp := now
        quality_code := 0 }
    { state := st1
      session := check_parameter_alerts p value s1
      events := []
      success := true }
  | (st1, none) =>
    { state := st1
      session := s.addReading
        { parameter_id := p.parameter_id
          value := 0
          timestamp := now
          quality_code := 2 }
      events := []
      success := false }

/-- The per-cycle outcome counts the source logs at line 183
(`successful_reads` / `total_parameters`), the spec's CycleReport. -/
structure CycleReport where
  attempted : Nat
  succeeded : Nat
  deriving Repr, DecidableEq

/-- Accumulator of the per-parameter loop: threaded client state, the
growing session, the notifications emitted so far, and the
`successful_reads` counter. -/
structure LoopState where
  state : ClientState
  session : Session
  events : List FanoutEvent
  succeeded : Nat

/-- The per-parameter loop of `collect_all_data` (lines 173-178): process
each active parameter in order, threading client state and session and
counting successes.  A per-point failure only affects its own count
(`collect_parameter_data` is total; the source's inner `try/except` has
nothing left to catch). -/
def collect_loop (env : PlcEnv) (now : Nat) :
    List Parameter → LoopState → LoopState
  | [], acc => acc
  | p :: ps, acc =>
    let r := collect_parameter_data env now acc.state acc.session p
    collect_loop env now ps
      { state := r.state
        session := r.session
        events := acc.events ++ r.events
        succeeded := acc.succeeded + if r.success then 1 else 0 }

/-- Observable result of one full acquisition cycle. `report` is the
completion log of line 183, present only when the cycle ran and its commit
succeeded; on a commit failure the source rolls the session back and the
committed store is unchanged. -/
structure CycleResult where
  state : ClientState
  store : Store
  events : List FanoutEvent
  report : Option CycleReport

/-- Embeds `DataCollector.collect_all_data` (lines 160-190): snapshot the
active parameters, return early when none, otherwise run the per-parameter
loop on a fresh session and commit every pending row as one unit;
`commitOk` is the oracle for `db.session.commit()`, whose failure is
caught at lines 185-190 and answered with `db.session.rollback()`. -/
def collect_all_data (env : PlcEnv) (now : Nat) (commitOk : Bool)
    (st : ClientState) (allParams : List Parameter) (store : Store) :
    CycleResult :=
  let parameters := allParams.filter (fun p => p.is_active)
  if parameters.isEmpty then
    { state := st, store := store, events := [], report := none }
  else
    let r := collect_loop env now parameters
      { state := st, session := ⟨[], []⟩, events := [], succeeded := 0 }
    if commitOk then
      { state := r.state
        store := { readings := store.readings ++ r.session.readings
                   alerts := store.alerts ++ r.session.alerts }
        events := r.events
        report := some { attempted := parameters.length
                         succeeded := r.succeeded } }
    else
      { state := r.state, store := store, events := r.events, report := none }

/-! ## Collector supervisor loop (DataCollector.collection_loop) -/

/-- How one loop iteration's cycle behaves: completes in `elapsed` seconds,
raises an ordinary exception (`except Exception`, line 215), or receives a
KeyboardInterrupt (line 212). -/
inductive CycleOutcome where
  | normal (elapsed : Rat)
  | raises
  | interrupt
  deriving Repr, DecidableEq

/-- Observable effect of one loop iteration: one cycle ran, then the loop
slept `sleep` seconds; `overrunLogged` is the warning of line 210. -/
structure IterEvent where
  sleep : Rat
  overrunLogged : Bool
  deriving Repr, DecidableEq

/-- One iteration of the `while self.running` body (lines 196-217):
a completing cycle sleeps `max 0 (interval - elapsed)` and logs an overrun
instead of sleeping when that is not positive; an ordinary exception is
caught and followed by a full-interval sleep; KeyboardInterrupt breaks the
loop (`none`). -/
def loop_iter (interval : Rat) (o : CycleOutcome) : Option IterEvent :=
  match o with
  | CycleOutcome.normal elapsed =>
    let sleep_time := max 0 (interval - elapsed)
    some { sleep := sleep_time, overrunLogged := !decide (sleep_time > 0) }
  | CycleOutcome.raises =>
    some { sleep := interval, overrunLogged := false }
  | CycleOutcome.interrupt => none

/-- Embeds `DataCollector.collection_loop` as a trace function: the list
of outcomes gives each successive iteration's cycle behavior while
`self.running` stays true, and the list's end models the explicit `stop`
(the flag observed false).  The produced trace records one event per cycle
actually run; KeyboardInterrupt's `break` ends the trace early. -/
def collection_loop (interval : Rat) : List CycleOutcome → List IterEvent
  | [] => []
  | o :: rest =>
    match loop_iter interval o with
    | none => []
    | some ev => ev :: collection_loop interval rest

/-! ## Claim-side specification of the threshold evaluator

Written from the spec's words (section 4.3 / claim C3), to be compared
with `check_parameter_alerts`, which is written from the source. -/

/-- The alert events the spec demands for a point and value: one event per
violated bound, bound violated exactly when it is set and strictly
exceeded (so a value equal to a bound violates nothing), each event of
severity `high` with `threshold_value` the violated bound and
`actual_value` the value. -/
def thresholdEvents (p : Parameter) (value : Rat) : List Alert :=
  (match p.min_value with
   | some lo =>
     if value < lo then
       [{ parameter_id := p.parameter_id
          message := belowMinMessage p value
          severity := "high"
          threshold_value := lo
          actual_value := value }]
     else []
   | none => []) ++
  (match p.max_value with
   | some hi =>
     if value > hi then
       [{ parameter_id := p.parameter_id
          message := exceedsMaxMessage p value
          severity := "high"
          threshold_value := hi
          actual_value := value }]
     else []
   | none => [])

/-! ## Concrete fixtures

Sample monitored points taken from the repository's REGISTER_MAPPING in
src/config.py (D20 Temperature 20-80, D21 Vibration 0-100, D22 Shock
0-10) and sample device environments, used to instantiate the theorems at
concrete inputs. -/

/-- A client with an established connection. -/
def connectedClient : ClientState := { connected := true, connectAttempts := 0 }

/-- A client that has not connected yet. -/
def freshClient : ClientState := { connected := false, connectAttempts := 0 }

/-- A reachable device: connects fine, register 21 times out
(ReadError Unreachable), every other register reads 2500 (25.00 after
scaling). -/
def sampleEnv : PlcEnv :=
  { connectOk := true
    respond := fun n =>
      if n = 21 then ModbusResponse.transportError else ModbusResponse.ok 2500 }

/-- An unreachable device: every connect attempt fails. -/
def downEnv : PlcEnv :=
  { connectOk := false, respond := fun _ => ModbusResponse.transportError }

/-- Temperature point, register D20, bounds 20-80. -/
def tempPoint : Parameter :=
  { parameter_id := 1, name := "Temperature", register_address := "D20"
    unit := "C", min_value := some 20, max_value := some 80, is_active := true }

/-- Vibration point, register D21, bounds 0-100. -/
def vibPoint : Parameter :=
  { parameter_id := 2, name := "Vibration", register_address := "D21"
    unit := "Hz", min_value := some 0, max_value := some 100, is_active := true }

/-- Shock point, register D22, bounds 0-10. -/
def shockPoint : Parameter :=
  { parameter_id := 3, name := "Shock", register_address := "D22"
    unit := "g", min_value := some 0, max_value := some 10, is_active := true }

/-- A point whose register identifier lacks the letter D. -/
def bareNumberPoint : Parameter :=
  { parameter_id := 4, name := "Sound", register_address := "20"
    unit := "dB", min_value := none, max_value := none, is_active := true }

/-! ## Helper lemmas -/

theorem check_parameter_alerts_readings (p : Parameter) (v : Rat) (s : Session) :
    (check_parameter_alerts p v s).readings = s.readings := by
  unfold check_parameter_alerts Session.addAlert
  cases p.min_value <;> cases p.max_value <;> dsimp <;> split_ifs <;> rfl

theorem read_register_state_of_connected (env : PlcEnv) (st : ClientState)
    (a : String) (h : st.connected = true) :
    (read_register env st a).1 = st := by
  rcases hd : decodeRegisterAddress a with _ | r
  · simp [read_register, h, hd]
  · rcases hr : env.respond r with w | _ | _ <;> simp [read_register, h, hd, hr]

theorem read_register_connected_ok (env : PlcEnv) (st : ClientState)
    (a : String) (r : Int) (w : Nat) (h : st.connected = true)
    (hd : decodeRegisterAddress a = some r)
    (hr : env.respond r = ModbusResponse.ok w) :
    read_register env st a = (st, some ((w : Rat) / 100)) := by
  unfold read_register
  simp [h, hd, hr]

theorem read_register_connected_unreachable (env : PlcEnv) (st : ClientState)
    (a : String) (r : Int) (h : st.connected = true)
    (hd : decodeRegisterAddress a = some r)
    (hr : env.respond r = ModbusResponse.transportError) :
    read_register env st a = (st, none) := by
  unfold read_register
  simp [h, hd, hr]

theorem collect_parameter_data_success (env : PlcEnv) (now : Nat)
    (st st1 : ClientState) (s : Session) (p : Parameter) (v : Rat)
    (h : read_register env st p.register_address = (st1, some v)) :
    collect_parameter_data env now st s p =
      { state := st1
        session := check_parameter_alerts p v
          (s.addReading ⟨p.parameter_id, v, now, 0⟩)
        events := []
        success := true } := by
  unfold collect_parameter_data
  rw [h]

theorem collect_parameter_data_failure (env : PlcEnv) (now : Nat)
    (st st1 : ClientState) (s : Session) (p : Parameter)
    (h : read_register env st p.register_address = (st1, none)) :
    collect_parameter_data env now st s p =
      { state := st1
        session := s.addReading ⟨p.parameter_id, 0, now, 2⟩
        events := []
        success := false } := by
  unfold collect_parameter_data
  rw [h]

theorem collect_parameter_data_events (env : PlcEnv) (now : Nat)
    (st : ClientState) (s : Session) (p : Parameter) :
    (collect_parameter_data env now st s p).events = [] := by
  unfold collect_parameter_data
  rcases read_register env st p.register_address with ⟨st1, _ | v⟩ <;> simp

theorem collect_parameter_data_readings (env : PlcEnv) (now : Nat)
    (st : ClientState) (s : Session) (p : Parameter) :
    ∃ d, (collect_parameter_data env now st s p).session.readings =
        s.readings ++ [d] ∧
      d.parameter_id = p.parameter_id ∧ d.timestamp = now ∧
      ((d.quality_code = 0 ∧
          (read_register env st p.register_address).2 = some d.value) ∨
       (d.quality_code = 2 ∧ d.value = 0 ∧
          (read_register env st p.register_address).2 = none)) := by
  unfold collect_parameter_data
  rcases h : read_register env st p.register_address with ⟨st1, _ | v⟩
  · exact ⟨⟨p.parameter_id, 0, now, 2⟩, by simp [Session.addReading], rfl, rfl,
      Or.inr ⟨rfl, rfl, rfl⟩⟩
  · refine ⟨⟨p.parameter_id, v, now, 0⟩, ?_, rfl, rfl, Or.inl ⟨rfl, rfl⟩⟩
    simp [check_parameter_alerts_readings, Session.addReading]

theorem collect_loop_events (env : PlcEnv) (now : Nat) (ps : List Parameter)
    (acc : LoopState) :
    (collect_loop env now ps acc).events = acc.events := by
  induction ps generalizing acc with
  | nil => rfl
  | cons p ps ih =>
    unfold collect_loop
    rw [ih]
    simp [collect_parameter_data_events]

theorem foldl_pyDigitStep_none (l : List Char) :
    l.foldl pyDigitStep none = none := by
  induction l with
  | nil => rfl
  | cons c l ih => simpa [pyDigitStep] using ih

theorem foldl_pyDigitStep_isSome (l : List Char) (n : Nat) :
    (l.foldl pyDigitStep (some n)).isSome = l.all Char.isDigit := by
  induction l generalizing n with
  | nil => rfl
  | cons c l ih =>
    by_cases hc : c.isDigit
    · simp [pyDigitStep, hc, ih]
    · simp [pyDigitStep, hc, foldl_pyDigitStep_none]

theorem pyParseDigits_isSome (l : List Char) :
    (pyParseDigits l).isSome = (!l.isEmpty && l.all Char.isDigit) := by
  cases l with
  | nil => rfl
  | cons c l =>
    by_cases hc : c.isDigit
    · simp [pyParseDigits, pyDigitStep, hc, foldl_pyDigitStep_isSome]
    · simp [pyParseDigits, pyDigitStep, hc, foldl_pyDigitStep_none]

theorem pyInt_isSome (l : List Char) :
    (pyInt l).isSome = isPyIntString l := by
  have hmap : ∀ (o : Option Nat) (f : Nat → Int), (o.map f).isSome = o.isSome := by
    intro o f; cases o <;> rfl
  have hbind : ∀ (o : Option Nat) (f : Nat → Int),
      (o.bind fun a => some (f a)).isSome = o.isSome := by
    intro o f; cases o <;> rfl
  cases l with
  | nil => rfl
  | cons c rest =>
    unfold pyInt isPyIntString
    by_cases h1 : c = '-'
    · simp [h1, hmap, hbind, pyParseDigits_isSome]
    · by_cases h2 : c = '+'
      · simp [h1, h2, hmap, hbind, pyParseDigits_isSome]
      · simp [h1, h2, hmap, hbind, pyParseDigits_isSome]

theorem collect_loop_quality (env : PlcEnv) (now : Nat) (ps : List Parameter)
    (acc : LoopState)
    (h : ∀ d ∈ acc.session.readings, d.quality_code = 0 ∨ d.quality_code = 2) :
    ∀ d ∈ (collect_loop env now ps acc).session.readings,
      d.quality_code = 0 ∨ d.quality_code = 2 := by
  induction ps generalizing acc with
  | nil => exact h
  | cons p ps ih =>
    unfold collect_loop
    apply ih
    obtain ⟨d, hd, _, _, hq⟩ :=
      collect_parameter_data_readings env now acc.state acc.session p
    rw [hd]
    intro x hx
    rcases List.mem_append.mp hx with hx | hx
    · exact h x hx
    · rcases List.mem_singleton.mp hx with rfl
      rcases hq with ⟨h0, _⟩ | ⟨h2, _⟩
      · exact Or.inl h0
      · exact Or.inr h2

theorem collect_loop_cons (env : PlcEnv) (now : Nat) (p : Parameter)
    (ps : List Parameter) (acc : LoopState) :
    collect_loop env now (p :: ps) acc =
      collect_loop env now ps
        { state := (collect_parameter_data env now acc.state acc.session p).state
          session := (collect_parameter_data env now acc.state acc.session p).session
          events := acc.events ++
            (collect_parameter_data env now acc.state acc.session p).events
          succeeded := acc.succeeded +
            if (collect_parameter_data env now acc.state acc.session p).success
            then 1 else 0 } := rfl

theorem read_register_state_of_disconnected (env : PlcEnv) (st : ClientState)
    (a : String) (h : st.connected = false) :
    (read_register env st a).1 =
      { connected := env.connectOk, connectAttempts := st.connectAttempts + 1 } := by
  by_cases ho : env.connectOk
  · rcases hd : decodeRegisterAddress a with _ | r
    · simp [read_register, connect, h, ho, hd]
    · rcases hr : env.respond r with w | _ | _ <;>
        simp [read_register, connect, h, ho, hd, hr]
  · simp [read_register, connect, h, ho]

/-! ## Claim theorems -/

/-- C3: for every point and value, the threshold evaluator emits an event
for the lower bound iff the lower bound is set and value < lower, and an
event for the upper bound iff the upper bound is set and value > upper;
each emitted event has severity high, threshold_value the violated bound
and actual_value the value; a value exactly equal to a bound yields no
event for that bound.  Stated as: the source's `check_parameter_alerts`
adds to the session exactly the events of the claim-side
`thresholdEvents`. -/
theorem check_parameter_alerts_matches_spec (p : Parameter) (v : Rat) (s : Session) :
    check_parameter_alerts p v s =
      { readings := s.readings, alerts := s.alerts ++ thresholdEvents p v } := by
  unfold check_parameter_alerts thresholdEvents Session.addAlert
  cases p.min_value <;> cases p.max_value <;> dsimp <;>
    (try split_ifs) <;> simp

/-- C7: for every point whose read fails with any ReadError, the cycle
records exactly one Reading with value 0 and quality bad (code 2) for that
point, leaves the pending alerts untouched (threshold evaluation skipped),
and reports the point as unsuccessful. -/
theorem collect_parameter_data_read_failure (env : PlcEnv) (now : Nat)
    (st : ClientState) (s : Session) (p : Parameter)
    (h : (read_register env st p.register_address).2 = none) :
    (collect_parameter_data env now st s p).session.readings =
        s.readings ++ [⟨p.parameter_id, 0, now, 2⟩] ∧
    (collect_parameter_data env now st s p).session.alerts = s.alerts ∧
    (collect_parameter_data env now st s p).success = false := by
  rcases hr : read_register env st p.register_address with ⟨st1, v⟩
  rw [hr] at h
  cases v with
  | none => rw [collect_parameter_data_failure env now st st1 s p hr]
            exact ⟨rfl, rfl, rfl⟩
  | some v => simp at h

/-- Witness for C7 at a concrete input: the Vibration point's register 21
times out in `sampleEnv`, so the cycle records the single bad reading. -/
theorem collect_parameter_data_read_failure_witness :
    (collect_parameter_data sampleEnv 7 connectedClient ⟨[], []⟩ vibPoint).session.readings =
        (⟨[], []⟩ : Session).readings ++ [⟨vibPoint.parameter_id, 0, 7, 2⟩] ∧
    (collect_parameter_data sampleEnv 7 connectedClient ⟨[], []⟩ vibPoint).session.alerts =
        (⟨[], []⟩ : Session).alerts ∧
    (collect_parameter_data sampleEnv 7 connectedClient ⟨[], []⟩ vibPoint).success = false :=
  collect_parameter_data_read_failure sampleEnv 7 connectedClient ⟨[], []⟩ vibPoint rfl

/-- Counterexample to C2: a point whose read succeeds (Temperature,
register 20, reads fine in `sampleEnv`) is processed with success, yet the
set of Live Fan-out notifications emitted while processing it is empty —
the acquisition cycle never calls `broadcast_sensor_update` or
`broadcast_alert`. -/
theorem collect_parameter_data_no_publish_cx :
    (collect_parameter_data sampleEnv 7 connectedClient ⟨[], []⟩ tempPoint).success = true ∧
    (collect_parameter_data sampleEnv 7 connectedClient ⟨[], []⟩ tempPoint).events = [] :=
  ⟨rfl, rfl⟩

/-- C2 amended: the acquisition cycle persists readings and alerts but
publishes nothing to the Live Fan-out — for every environment, cycle and
store, the set of notifications emitted by `collect_all_data` is empty
(the dashboard's broadcast helpers exist but are never invoked by the
collector). -/
theorem collect_all_data_publishes_nothing (env : PlcEnv) (now : Nat)
    (commitOk : Bool) (st : ClientState) (ps : List Parameter) (store : Store) :
    (collect_all_data env now commitOk st ps store).events = [] := by
  unfold collect_all_data
  dsimp only
  split
  · rfl
  · split <;> simp [collect_loop_events]

/-- Counterexample to C4: the identifier `20` has no letter prefix, yet
`read_register`'s decode accepts it (the `else int(register_address)`
branch), so decoding does NOT fail for every identifier whose prefix is
absent; and the letter prefix `X` is rejected even though it is a letter
prefix followed by digits. -/
theorem decodeRegisterAddress_bare_number_cx :
    decodeRegisterAddress "20" = some 20 ∧ decodeRegisterAddress "X20" = none :=
  ⟨by decide, by decide⟩

/-- C4 amended: `read_register`'s decoding succeeds iff the identifier is
the letter `D` followed by a Python integer literal, or carries no `D`
prefix and is itself a Python integer literal (so a bare digit string such
as `20` decodes, and any other letter prefix fails with the error mapped
to `None`); `Parameter.get_register_number`, by contrast, returns no
register number whenever the `D` prefix is absent. -/
theorem decodeRegisterAddress_spec :
    (∀ s : String,
      ((decodeRegisterAddress s).isSome = true ↔
        (∃ rest, s.data = 'D' :: rest ∧ isPyIntString rest = true) ∨
        (s.data.head? ≠ some 'D' ∧ isPyIntString s.data = true))) ∧
    (∀ p : Parameter, p.register_address.data.head? ≠ some 'D' →
      get_register_number p = Except.ok none) := by
  constructor
  · intro s
    unfold decodeRegisterAddress
    rcases hd : s.data with _ | ⟨c, rest⟩
    · simp [pyInt, isPyIntString]
    · by_cases hc : c = 'D'
      · subst hc
        simp [pyInt_isSome]
      · simp [pyInt_isSome, hc]
  · intro p hp
    unfold get_register_number
    rcases hd : p.register_address.data with _ | ⟨c, rest⟩
    · rfl
    · rw [hd] at hp
      have hc : ¬ c = 'D' := by simpa using hp
      simp [hc]

/-- Witness for C4 amended at concrete inputs: `D20` decodes (left-to-right
direction of the characterization), and the point with bare identifier
`20` gets no register number from `get_register_number`. -/
theorem decodeRegisterAddress_spec_witness :
    (decodeRegisterAddress "D20").isSome = true ∧
    get_register_number bareNumberPoint = Except.ok none :=
  ⟨(decodeRegisterAddress_spec.1 "D20").mpr
      (Or.inl ⟨['2', '0'], by decide, by decide⟩),
   decodeRegisterAddress_spec.2 bareNumberPoint (by decide)⟩

/-- C6: all Readings and AlertEvents of a cycle are committed as a single
unit at the end of the cycle — on a successful commit the committed store
is the prior store extended by exactly the cycle's pending session rows
(every reading and every alert the per-point loop accumulated, appended as
one block each, nothing less and nothing more) — and on a commit failure
the whole cycle's pending writes are discarded: the committed store is
exactly what it was before the cycle. -/
theorem collect_all_data_commit_unit (env : PlcEnv) (now : Nat)
    (st : ClientState) (ps : List Parameter) (store : Store) :
    (collect_all_data env now false st ps store).store = store ∧
    (collect_all_data env now true st ps store).store =
      { readings := store.readings ++
          (collect_loop env now (ps.filter (fun p => p.is_active))
            { state := st, session := ⟨[], []⟩, events := [],
              succeeded := 0 }).session.readings
        alerts := store.alerts ++
          (collect_loop env now (ps.filter (fun p => p.is_active))
            { state := st, session := ⟨[], []⟩, events := [],
              succeeded := 0 }).session.alerts } := by
  constructor
  · unfold collect_all_data
    dsimp only
    split
    · rfl
    · rfl
  · unfold collect_all_data
    dsimp only
    split
    · next he =>
      rw [List.isEmpty_iff] at he
      rw [he]
      simp [collect_loop]
    · rfl

/-- C9: every Reading created by the core has quality good (0) or bad (2):
each processed point appends exactly one reading whose quality is 0 iff
the register read returned a value; and across a whole cycle the committed
store never acquires a reading of the reserved quality uncertain (1). -/
theorem readings_quality_good_or_bad :
    (∀ (env : PlcEnv) (now : Nat) (st : ClientState) (s : Session) (p : Parameter),
      ∃ d, (collect_parameter_data env now st s p).session.readings =
          s.readings ++ [d] ∧
        (d.quality_code = 0 ∨ d.quality_code = 2) ∧
        (d.quality_code = 0 ↔
          (read_register env st p.register_address).2.isSome = true)) ∧
    (∀ (env : PlcEnv) (now : Nat) (commitOk : Bool) (st : ClientState)
        (ps : List Parameter) (store : Store),
      (∀ d ∈ store.readings, d.quality_code = 0 ∨ d.quality_code = 2) →
      ∀ d ∈ (collect_all_data env now commitOk st ps store).store.readings,
        d.quality_code = 0 ∨ d.quality_code = 2) := by
  constructor
  · intro env now st s p
    obtain ⟨d, hd, _, _, hq⟩ := collect_parameter_data_readings env now st s p
    refine ⟨d, hd, ?_, ?_⟩
    · rcases hq with ⟨h0, _⟩ | ⟨h2, _, _⟩
      · exact Or.inl h0
      · exact Or.inr h2
    · rcases hq with ⟨h0, hs⟩ | ⟨h2, _, hn⟩
      · exact ⟨fun _ => by rw [hs]; rfl, fun _ => h0⟩
      · constructor
        · intro h0; rw [h0] at h2; cases h2
        · intro hs; rw [hn] at hs; cases hs
  · intro env now commitOk st ps store h
    unfold collect_all_data
    dsimp only
    split
    · exact h
    · split
      · intro d hd
        rcases List.mem_append.mp hd with hd | hd
        · exact h d hd
        · exact collect_loop_quality env now _
            { state := st, session := ⟨[], []⟩, events := [], succeeded := 0 }
            (by intro x hx; cases hx) d hd
      · exact h

/-- Witness for C9 at a concrete input: one processed point appends one
reading of quality 0 or 2, and a full two-point cycle starting from an
empty store leaves only readings of quality 0 or 2. -/
theorem readings_quality_good_or_bad_witness :
    (∃ d, (collect_parameter_data sampleEnv 7 connectedClient ⟨[], []⟩
          tempPoint).session.readings =
        (⟨[], []⟩ : Session).readings ++ [d] ∧
      (d.quality_code = 0 ∨ d.quality_code = 2) ∧
      (d.quality_code = 0 ↔
        (read_register sampleEnv connectedClient
          tempPoint.register_address).2.isSome = true)) ∧
    (∀ d ∈ (collect_all_data sampleEnv 7 true connectedClient
        [tempPoint, vibPoint] ⟨[], []⟩).store.readings,
      d.quality_code = 0 ∨ d.quality_code = 2) :=
  ⟨readings_quality_good_or_bad.1 sampleEnv 7 connectedClient ⟨[], []⟩ tempPoint,
   readings_quality_good_or_bad.2 sampleEnv 7 true connectedClient
     [tempPoint, vibPoint] ⟨[], []⟩ (by intro d hd; cases hd)⟩

/-- C10: `read_register` is total at its public interface — its result is
`None` or a decoded value (never an escaping exception), each failure mode
(failed connect while disconnected, malformed address, protocol error
response, transport exception) yields `None`, and a call makes at most one
connect attempt (none at all when a connection is already established). -/
theorem read_register_total (env : PlcEnv) (st : ClientState) (a : String) :
    ((read_register env st a).2 = none ∨
      ∃ r w, decodeRegisterAddress a = some r ∧
        env.respond r = ModbusResponse.ok w ∧
        (read_register env st a).2 = some ((w : Rat) / 100)) ∧
    (read_register env st a).1.connectAttempts ≤ st.connectAttempts + 1 ∧
    (st.connected = true →
      (read_register env st a).1.connectAttempts = st.connectAttempts) ∧
    (st.connected = false → env.connectOk = false →
      (read_register env st a).2 = none) ∧
    (decodeRegisterAddress a = none → (read_register env st a).2 = none) ∧
    (∀ r, decodeRegisterAddress a = some r →
      env.respond r = ModbusResponse.errorResponse ∨
        env.respond r = ModbusResponse.transportError →
      (read_register env st a).2 = none) := by
  refine ⟨?_, ?_, ?_, ?_, ?_, ?_⟩
  · cases hc : st.connected
    · by_cases ho : env.connectOk
      · rcases hd : decodeRegisterAddress a with _ | r
        · exact Or.inl (by simp [read_register, connect, hc, ho, hd])
        · rcases hr : env.respond r with w | _ | _
          · exact Or.inr ⟨r, w, rfl, hr,
              by simp [read_register, connect, hc, ho, hd, hr]⟩
          · exact Or.inl (by simp [read_register, connect, hc, ho, hd, hr])
          · exact Or.inl (by simp [read_register, connect, hc, ho, hd, hr])
      · exact Or.inl (by simp [read_register, connect, hc, ho])
    · rcases hd : decodeRegisterAddress a with _ | r
      · exact Or.inl (by simp [read_register, hc, hd])
      · rcases hr : env.respond r with w | _ | _
        · exact Or.inr ⟨r, w, rfl, hr, by simp [read_register, hc, hd, hr]⟩
        · exact Or.inl (by simp [read_register, hc, hd, hr])
        · exact Or.inl (by simp [read_register, hc, hd, hr])
  · cases hc : st.connected
    · rw [read_register_state_of_disconnected env st a hc]
    · rw [read_register_state_of_connected env st a hc]
      exact Nat.le_succ _
  · intro h
    rw [read_register_state_of_connected env st a h]
  · intro h1 h2
    simp [read_register, connect, h1, h2]
  · intro hd
    cases hc : st.connected
    · by_cases ho : env.connectOk
      · simp [read_register, connect, hc, ho, hd]
      · simp [read_register, connect, hc, ho]
    · simp [read_register, hc, hd]
  · intro r hd hr
    cases hc : st.connected
    · by_cases ho : env.connectOk
      · rcases hr with hr | hr <;> simp [read_register, connect, hc, ho, hd, hr]
      · simp [read_register, connect, hc, ho]
    · rcases hr with hr | hr <;> simp [read_register, hc, hd, hr]

/-- Witness for C10 at a concrete input: against an unreachable device a
fresh client's read of `X20` returns `None` and makes at most one connect
attempt. -/
theorem read_register_total_witness :
    (read_register downEnv freshClient "X20").2 = none ∧
    (read_register downEnv freshClient "X20").1.connectAttempts ≤
      freshClient.connectAttempts + 1 :=
  ⟨(read_register_total downEnv freshClient "X20").2.2.2.1 rfl rfl,
   (read_register_total downEnv freshClient "X20").2.1⟩

/-- C5: after a completed cycle the supervisor loop sleeps exactly
`max 0 (interval - elapsed)`, logs the overrun precisely when
elapsed ≥ interval (in which case the sleep is zero), and continues
directly with the next scheduled cycle — the trace's tail is the loop on
the remaining cycles, so no cycle is skipped or coalesced. -/
theorem collection_loop_drift_correction (interval elapsed : Rat)
    (rest : List CycleOutcome) :
    collection_loop interval (CycleOutcome.normal elapsed :: rest) =
      { sleep := max 0 (interval - elapsed),
        overrunLogged := decide (interval ≤ elapsed) } ::
        collection_loop interval rest ∧
    (interval ≤ elapsed → max 0 (interval - elapsed) = 0) := by
  constructor
  · have hov : (!decide (max 0 (interval - elapsed) > 0)) =
        decide (interval ≤ elapsed) := by
      by_cases h : interval ≤ elapsed
      · have h0 : max 0 (interval - elapsed) = 0 :=
          max_eq_left (sub_nonpos.mpr h)
        simp [h0, h]
      · have hlt : 0 < interval - elapsed := sub_pos.mpr (lt_of_not_le h)
        have h0 : max 0 (interval - elapsed) = interval - elapsed :=
          max_eq_right hlt.le
        simp [h0, hlt, h]
    simp only [collection_loop, loop_iter]
    rw [hov]
  · intro h
    exact max_eq_left (sub_nonpos.mpr h)

/-- Witness for C5 at a concrete input: a cycle that takes exactly the
interval (elapsed = interval = 5) sleeps zero, logs the overrun, and the
loop proceeds with the remaining trace. -/
theorem collection_loop_drift_correction_witness :
    collection_loop 5 [CycleOutcome.normal 5] =
      { sleep := max 0 ((5 : Rat) - 5),
        overrunLogged := decide ((5 : Rat) ≤ 5) } :: collection_loop 5 [] ∧
    max 0 ((5 : Rat) - 5) = 0 :=
  ⟨(collection_loop_drift_correction 5 5 []).1,
   (collection_loop_drift_correction 5 5 []).2 (le_refl 5)⟩

/-- Counterexample to C8: a KeyboardInterrupt inside a cycle breaks the
loop (line 212-214 of the source) even though no explicit stop was issued
and a further cycle was still scheduled — so the loop's termination is not caused
only by explicit stop. -/
theorem collection_loop_interrupt_cx :
    collection_loop 5 [CycleOutcome.interrupt, CycleOutcome.raises] = [] := rfl

/-- C8 amended: every ordinary unhandled exception inside a cycle is
caught at the loop boundary and followed by a full-interval sleep, and the
loop never terminates because of such an error — it runs one iteration
per scheduled cycle until the explicit stop, terminating early only on a
KeyboardInterrupt. -/
theorem collection_loop_exception_containment :
    (∀ (interval : Rat) (rest : List CycleOutcome),
      collection_loop interval (CycleOutcome.raises :: rest) =
        { sleep := interval, overrunLogged := false } ::
          collection_loop interval rest) ∧
    (∀ (interval : Rat) (outs : List CycleOutcome),
      (∀ o ∈ outs, o ≠ CycleOutcome.interrupt) →
      (collection_loop interval outs).length = outs.length) := by
  constructor
  · intro interval rest
    rfl
  · intro interval outs h
    induction outs with
    | nil => rfl
    | cons o rest ih =>
      have hrest : ∀ o ∈ rest, o ≠ CycleOutcome.interrupt :=
        fun x hx => h x (List.mem_cons_of_mem o hx)
      cases o with
      | normal e => simp [collection_loop, loop_iter, ih hrest]
      | raises => simp [collection_loop, loop_iter, ih hrest]
      | interrupt => exact absurd rfl (h _ (List.mem_cons_self _ _))

/-- Witness for C8 amended at a concrete input: a single raising cycle at
interval 5 sleeps the full interval and the loop's trace covers the whole
schedule. -/
theorem collection_loop_exception_containment_witness :
    collection_loop 5 [CycleOutcome.raises] =
      { sleep := 5, overrunLogged := false } :: collection_loop 5 [] ∧
    (collection_loop 5 [CycleOutcome.raises]).length =
      [CycleOutcome.raises].length :=
  ⟨collection_loop_exception_containment.1 5 [],
   collection_loop_exception_containment.2 5 [CycleOutcome.raises]
     (by intro o ho; rcases List.mem_singleton.mp ho with rfl; simp)⟩

/-- C1: for any three active points where point 2's read fails with
Unreachable (a transport error) while points 1 and 3 read fine, the cycle
still produces three Readings — two good, one bad — and its CycleReport
(the logged successful_reads / total_parameters counts) is attempted = 3,
succeeded = 2: the failure on point 2 does not abort the rest of the
cycle. -/
theorem collect_all_data_cycle_isolation
    (env : PlcEnv) (now : Nat) (st : ClientState) (store : Store)
    (p1 p2 p3 : Parameter) (r1 r2 r3 : Int) (w1 w3 : Nat)
    (hc : st.connected = true)
    (ha1 : p1.is_active = true) (ha2 : p2.is_active = true)
    (ha3 : p3.is_active = true)
    (hd1 : decodeRegisterAddress p1.register_address = some r1)
    (hr1 : env.respond r1 = ModbusResponse.ok w1)
    (hd2 : decodeRegisterAddress p2.register_address = some r2)
    (hr2 : env.respond r2 = ModbusResponse.transportError)
    (hd3 : decodeRegisterAddress p3.register_address = some r3)
    (hr3 : env.respond r3 = ModbusResponse.ok w3) :
    (collect_all_data env now true st [p1, p2, p3] store).store.readings =
      store.readings ++
        [⟨p1.parameter_id, (w1 : Rat) / 100, now, 0⟩,
         ⟨p2.parameter_id, 0, now, 2⟩,
         ⟨p3.parameter_id, (w3 : Rat) / 100, now, 0⟩] ∧
    (collect_all_data env now true st [p1, p2, p3] store).report =
      some { attempted := 3, succeeded := 2 } := by
  have hf : [p1, p2, p3].filter (fun p => p.is_active) = [p1, p2, p3] := by
    simp [List.filter, ha1, ha2, ha3]
  have h1 := collect_parameter_data_success env now st st
    (⟨[], []⟩ : Session) p1 ((w1 : Rat) / 100)
    (read_register_connected_ok env st p1.register_address r1 w1 hc hd1 hr1)
  set s1 : Session := check_parameter_alerts p1 ((w1 : Rat) / 100)
    (Session.addReading ⟨[], []⟩ ⟨p1.parameter_id, (w1 : Rat) / 100, now, 0⟩)
    with hs1
  have h2 := collect_parameter_data_failure env now st st s1 p2
    (read_register_connected_unreachable env st p2.register_address r2 hc hd2 hr2)
  set s2 : Session := Session.addReading s1 ⟨p2.parameter_id, 0, now, 2⟩ with hs2
  have h3 := collect_parameter_data_success env now st st s2 p3 ((w3 : Rat) / 100)
    (read_register_connected_ok env st p3.register_address r3 w3 hc hd3 hr3)
  set s3 : Session := check_parameter_alerts p3 ((w3 : Rat) / 100)
    (Session.addReading s2 ⟨p3.parameter_id, (w3 : Rat) / 100, now, 0⟩)
    with hs3
  have hloop : collect_loop env now [p1, p2, p3]
      { state := st, session := ⟨[], []⟩, events := [], succeeded := 0 } =
      { state := st, session := s3, events := [], succeeded := 2 } := by
    rw [collect_loop_cons]
    dsimp only
    rw [h1]
    rw [collect_loop_cons]
    dsimp only
    rw [h2]
    rw [collect_loop_cons]
    dsimp only
    rw [h3]
    rfl
  constructor
  · unfold collect_all_data
    rw [hf]
    dsimp only
    rw [hloop]
    dsimp only
    rw [hs3, hs2, hs1]
    simp [check_parameter_alerts_readings, Session.addReading]
  · unfold collect_all_data
    rw [hf]
    dsimp only
    rw [hloop]
    rfl

/-- Witness for C1 at a concrete input: Temperature (D20) and Shock (D22)
read 2500 while Vibration's register 21 times out; the cycle stores three
readings (good, bad, good) and reports 2 of 3 successes. -/
theorem collect_all_data_cycle_isolation_witness :
    (collect_all_data sampleEnv 7 true connectedClient
        [tempPoint, vibPoint, shockPoint] ⟨[], []⟩).store.readings =
      (⟨[], []⟩ : Store).readings ++
        [⟨tempPoint.parameter_id, ((2500 : Nat) : Rat) / 100, 7, 0⟩,
         ⟨vibPoint.parameter_id, 0, 7, 2⟩,
         ⟨shockPoint.parameter_id, ((2500 : Nat) : Rat) / 100, 7, 0⟩] ∧
    (collect_all_data sampleEnv 7 true connectedClient
        [tempPoint, vibPoint, shockPoint] ⟨[], []⟩).report =
      some { attempted := 3, succeeded := 2 } :=
  collect_all_data_cycle_isolation sampleEnv 7 connectedClient ⟨[], []⟩
    tempPoint vibPoint shockPoint 20 21 22 2500 2500
    rfl rfl rfl rfl (by decide) (by decide) (by decide) (by decide)
    (by decide) (by decide)

end NextCare
